import Mathlib

/-!
# Verification of the ffpb progress notifier

A shallow embedding of the core of src/ffpb.py: the byte-stream line
accumulator, the fact extractors (duration, source, fps, position), the
prompt detector, the progress estimator driving the bar renderer, and the
session controller in `main`.  Byte strings are modelled as `List Nat`
(one entry per byte value); calls to external collaborators (the output
stream, the renderer, the interactive input source) are recorded in
explicit event logs inside the state.
-/

set_option maxHeartbeats 1000000
set_option maxRecDepth 100000

/-- Bytes of an ASCII string, modelling Python byte strings and decoded text
as lists of byte values. -/
def str2bytes (s : String) : List Nat := s.data.map Char.toNat

/-- Run configuration: whether an interactive input source (the optional
stdin queue argument of the notifier call) is attached, the response text
the interactive input source would yield, and the use_colors flag. -/
structure Cfg where
  stdin : Bool
  response : List Nat
  use_colors : Bool
deriving DecidableEq

/-- The renderer handle (tqdm bar): description, total, unit label and the
absolute position n that update calls advance. -/
structure PBar where
  desc : Option (List Nat)
  total : Option Nat
  unit : String
  n : Int
deriving DecidableEq

/-- State of ColoredProgressNotifier plus event logs recording the calls
made to external collaborators (prompt rendering, stream flushes, lines put
on the stdin queue, the deltas passed to the renderer update method, and
how many times a renderer was constructed). -/
structure NState where
  lines : List (List Nat)
  line_acc : List Nat
  duration : Option Nat
  source : Option (List Nat)
  fps : Option Nat
  pbar : Option PBar
  promptRenders : List (List Nat)
  flushes : Nat
  stdinPuts : List (List Nat)
  deltas : List Int
  pbarCreations : Nat
deriving DecidableEq

/-- The state built by the notifier constructor. -/
def initState : NState :=
  { lines := [], line_acc := [], duration := none, source := none,
    fps := none, pbar := none, promptRenders := [], flushes := 0,
    stdinPuts := [], deltas := [], pbarCreations := 0 }

/-- A configuration with no interactive input source and colors disabled. -/
def cfg0 : Cfg := { stdin := false, response := [], use_colors := false }

/-! ## Regular expression models

Each of the four patterns of the source is modelled by a matcher trying the
pattern at the head of a byte list, together with a left-to-right search
(`reSearch`) giving the leftmost match, as re.search does. -/

/-- Two-digit group: matches two ASCII digit bytes and returns their value,
modelling a d-d group of the patterns. -/
def matchTwoDigits : List Nat → Option (Nat × List Nat)
  | a :: b :: rest =>
      if 48 ≤ a ∧ a ≤ 57 ∧ 48 ≤ b ∧ b ≤ 57 then
        some ((a - 48) * 10 + (b - 48), rest)
      else none
  | _ => none

/-- Literal byte sequence matcher: consumes the expected bytes from the
head of the input. -/
def matchLit : List Nat → List Nat → Option (List Nat)
  | [], l => some l
  | _ :: _, [] => none
  | p :: ps, b :: bs => if b = p then matchLit ps bs else none

/-- Leftmost-match search: try the matcher at every start position from the
left, as re.search does; none of the modelled patterns can match an empty
suffix, so stopping at the empty list is faithful. -/
def reSearch {α : Type} (m : List Nat → Option α) : List Nat → Option α
  | [] => none
  | b :: t =>
      match m (b :: t) with
      | some v => some v
      | none => reSearch m t

/-- The static method _seconds of the notifier. -/
def secondsOf (h m s : Nat) : Nat := (h * 60 + m) * 60 + s

/-- Single literal byte matcher. -/
def matchByte (c : Nat) : List Nat → Option (List Nat)
  | b :: rest => if b = c then some rest else none
  | [] => none

/-- Timestamp pattern: two digit pairs separated by colons, a second pair,
a dot, and a discarded two-digit fraction; returns the _seconds value of
the three captured groups, as get_duration and progress combine them. -/
def matchTimestamp (l : List Nat) : Option (Nat × List Nat) :=
  (matchTwoDigits l).bind fun hr =>
  (matchByte 58 hr.2).bind fun r1 =>
  (matchTwoDigits r1).bind fun mr =>
  (matchByte 58 mr.2).bind fun r2 =>
  (matchTwoDigits r2).bind fun sr =>
  (matchByte 46 sr.2).bind fun r3 =>
  (matchTwoDigits r3).bind fun fr =>
  some (secondsOf hr.1 mr.1 sr.1, fr.2)

/-- The literal bytes of the string Duration-colon-space. -/
def durationLit : List Nat := [68, 117, 114, 97, 116, 105, 111, 110, 58, 32]

/-- The literal bytes of the string time-equals. -/
def timeLit : List Nat := [116, 105, 109, 101, 61]

/-- The literal bytes of the string from-space-quote. -/
def fromLit : List Nat := [102, 114, 111, 109, 32, 39]

/-- The literal bytes of the string space-f-p-s. -/
def fpsLit : List Nat := [32, 102, 112, 115]

/-- The literal bytes of the prompt marker, open-bracket y slash N
close-bracket space. -/
def promptMarker : List Nat := [91, 121, 47, 78, 93, 32]

/-- Matcher for the _DURATION_RX pattern at a given start position. -/
def matchDurationAt (l : List Nat) : Option Nat :=
  (matchLit durationLit l).bind fun r => (matchTimestamp r).map Prod.fst

/-- Method get_duration: leftmost search of _DURATION_RX, converting the
captured groups with _seconds. -/
def get_duration (line : List Nat) : Option Nat := reSearch matchDurationAt line

/-- Matcher for the _PROGRESS_RX pattern at a given start position. -/
def matchProgressAt (l : List Nat) : Option Nat :=
  (matchLit timeLit l).bind fun r => (matchTimestamp r).map Prod.fst

/-- The _PROGRESS_RX search performed by the progress method, converting
the captured groups with _seconds. -/
def searchProgress (line : List Nat) : Option Nat := reSearch matchProgressAt line

/-- Python round applied to a two-decimal numeral a.c; two-decimal values
are either exact in binary floating point or far enough from a half for
round-half-to-even on the exact rational to agree with the float result. -/
def roundHalfEven (a c : Nat) : Nat :=
  if c < 50 then a else if 50 < c then a + 1 else if a % 2 = 0 then a else a + 1

/-- First alternative of _FPS_RX: two digits, a dot, two digits, then the
space-fps literal. -/
def matchFpsFrac (l : List Nat) : Option Nat :=
  match matchTwoDigits l with
  | some (a, 46 :: r) =>
      match matchTwoDigits r with
      | some (c, r2) =>
          match matchLit fpsLit r2 with
          | some _ => some (roundHalfEven a c)
          | none => none
      | none => none
  | _ => none

/-- Second alternative of _FPS_RX: two digits then the space-fps literal. -/
def matchFpsInt (l : List Nat) : Option Nat :=
  match matchTwoDigits l with
  | some (a, r) =>
      match matchLit fpsLit r with
      | some _ => some a
      | none => none
  | none => none

/-- Matcher for _FPS_RX at a given start position: the regex engine tries
the fractional alternative first and backtracks to the integer one. -/
def matchFpsAt (l : List Nat) : Option Nat :=
  match matchFpsFrac l with
  | some v => some v
  | none => matchFpsInt l

/-- Method get_fps: leftmost search of _FPS_RX with Python rounding. -/
def get_fps (line : List Nat) : Option Nat := reSearch matchFpsAt line

/-- Does the list start with a quote byte followed by a colon byte? -/
def quoteColonHead : List Nat → Bool
  | 39 :: 58 :: _ => true
  | _ => false

/-- Matcher for _SOURCE_RX at a given start position: the literal
from-space-quote, then a greedy dot-star group (any bytes except newline,
longest first) followed by a quote and a colon. -/
def matchSourceAt (l : List Nat) : Option (List Nat) :=
  match matchLit fromLit l with
  | some rest =>
      (List.range (rest.length + 1)).reverse.findSome? fun k =>
        if (rest.take k).all (fun b => b != 10) && quoteColonHead (rest.drop k) then
          some (rest.take k)
        else none
  | none => none

/-- Model of os.path.basename on a posix path: the segment after the last
slash byte. -/
def basenameOf (l : List Nat) : List Nat :=
  l.foldl (fun acc b => if b = 47 then [] else acc ++ [b]) []

/-- Method get_source: leftmost search of _SOURCE_RX, then basename of the
decoded group (decoding is modelled as the identity on bytes). -/
def get_source (line : List Nat) : Option (List Nat) :=
  (reSearch matchSourceAt line).map basenameOf

/-! ## The notifier state machine -/

/-- Escape sequence for bright cyan. -/
def escBrightCyan : List Nat := [27, 91, 57, 54, 109]

/-- Escape sequence for bold. -/
def escBold : List Nat := [27, 91, 49, 109]

/-- Escape sequence resetting attributes. -/
def escReset : List Nat := [27, 91, 48, 109]

/-- Method _colorize_filename: trim a long name to 27 bytes plus three
dots, and wrap it in color escapes when colors are enabled. -/
def colorizeFilename (use_colors : Bool) (name : List Nat) : List Nat :=
  let name1 := if 30 < name.length then name.take 27 ++ [46, 46, 46] else name
  if use_colors then escBrightCyan ++ escBold ++ name1 ++ escReset else name1

/-- The bar description computed by progress: the source name, colorized
when colors are on and the name is a nonempty string. -/
def descOf (cfg : Cfg) (st : NState) : Option (List Nat) :=
  match st.source with
  | some s => if cfg.use_colors && s != [] then some (colorizeFilename cfg.use_colors s) else some s
  | none => none

/-- The current value computed by progress: seconds scaled by fps when fps
is known. -/
def progressCurrent (st : NState) (sec : Nat) : Nat :=
  match st.fps with
  | some f => sec * f
  | none => sec

/-- The total computed by progress: the duration, scaled by fps only when
fps is known and the duration is truthy (present and nonzero), mirroring
the Python truthiness test on the total. -/
def progressTotal (st : NState) : Option Nat :=
  match st.fps with
  | some f =>
      match st.duration with
      | some t => if t ≠ 0 then some (t * f) else some t
      | none => none
  | none => st.duration

/-- The unit label computed by progress. -/
def progressUnit (st : NState) : String :=
  match st.fps with
  | some _ => " frames"
  | none => " seconds"

/-- Method progress: search the line for _PROGRESS_RX; on a match compute
current, total and unit from the facts, lazily construct the bar on first
update, and advance the bar by current minus its absolute position, as
tqdm update adds its argument to n. -/
def progress (cfg : Cfg) (st : NState) (line : List Nat) : NState :=
  match searchProgress line with
  | none => st
  | some sec =>
      let current : Int := (progressCurrent st sec : Nat)
      let st1 :=
        match st.pbar with
        | none =>
            { st with
              pbar := some { desc := descOf cfg st, total := progressTotal st,
                             unit := progressUnit st, n := 0 },
              pbarCreations := st.pbarCreations + 1 }
        | some _ => st
      match st1.pbar with
      | some p =>
          { st1 with
            pbar := some { p with n := p.n + (current - p.n) },
            deltas := st1.deltas ++ [current - p.n] }
      | none => st1

/-- Method newline: snapshot the accumulator as a completed line, append
it to the history, clear the accumulator, and return the snapshot. -/
def newline (st : NState) : NState × List Nat :=
  let line := st.line_acc
  ({ st with lines := st.lines ++ [line], line_acc := [] }, line)

/-- First latch of the call method: set duration from the line when it is
still unset. -/
def latchDuration (st : NState) (line : List Nat) : NState :=
  if st.duration.isNone then { st with duration := get_duration line } else st

/-- Second latch of the call method: set source from the line when it is
still unset. -/
def latchSource (st : NState) (line : List Nat) : NState :=
  if st.source.isNone then { st with source := get_source line } else st

/-- Third latch of the call method: set fps from the line when it is still
unset. -/
def latchFps (st : NState) (line : List Nat) : NState :=
  if st.fps.isNone then { st with fps := get_fps line } else st

/-- The last up-to-six bytes of a list, as the Python slice from minus six
takes them. -/
def lastN (n : Nat) (l : List Nat) : List Nat := l.drop (l.length - n)

/-- Prompt detection hit: extend the accumulator with the chunk, render the
decoded accumulator to the output stream and flush it (both recorded in the
event logs; decoding is the identity on bytes). -/
def promptRender (st : NState) (chunk : List Nat) : NState :=
  { st with line_acc := st.line_acc ++ chunk,
            promptRenders := st.promptRenders ++ [st.line_acc ++ chunk],
            flushes := st.flushes + 1 }

/-- Prompt forwarding: when an interactive input source is attached, put
the read response plus a newline on the child input queue. -/
def promptForward (cfg : Cfg) (st : NState) : NState :=
  if cfg.stdin then { st with stdinPuts := st.stdinPuts ++ [cfg.response ++ [10]] }
  else st

/-- The call method of the notifier on one chunk of bytes.  Python tests
membership of the chunk in the two-byte terminator string, which for byte
strings is a substring test, so a chunk counts as a terminator exactly when
it is empty, one terminator byte, or the full two-byte sequence.  On a
terminator: complete the line, run the three first-match-wins latches, and
run progress.  Otherwise: extend the accumulator and, when its last six
bytes equal the prompt marker, render and flush the prompt, forward one
response line when an input source is attached, and force a line
completion with newline. -/
def call (cfg : Cfg) (st : NState) (chunk : List Nat) : NState :=
  if chunk = [] ∨ chunk = [13] ∨ chunk = [10] ∨ chunk = [13, 10] then
    progress cfg
      (latchFps (latchSource (latchDuration (newline st).1 (newline st).2) (newline st).2)
        (newline st).2)
      (newline st).2
  else
    if lastN 6 (st.line_acc ++ chunk) = promptMarker then
      (newline (promptForward cfg (promptRender st chunk))).1
    else
      { st with line_acc := st.line_acc ++ chunk }

/-- The read loop of main: the child stream is consumed one byte at a time
and each byte is passed to the notifier. -/
def feedBytes (cfg : Cfg) (st : NState) (bs : List Nat) : NState :=
  bs.foldl (fun s b => call cfg s [b]) st

/-! ## The session controller (main) -/

/-- POSIX SIGINT number. -/
def SIGINT : Nat := 2

/-- How one run of the read loop ends: the loop finishes and the child has
exit code rc, an interrupt arrives after k bytes were consumed, or an
unexpected fault with a message is raised after k bytes. -/
inductive LoopOutcome where
  | finished (rc : Int)
  | interrupted (k : Nat)
  | faulted (k : Nat) (msg : List Nat)
deriving DecidableEq

/-- The part of the child stream consumed before the loop ended. -/
def consumedStream (s : List Nat) : LoopOutcome → List Nat
  | .finished _ => s
  | .interrupted k => s.take k
  | .faulted k _ => s.take k

/-- The notifier state at the moment the loop ends. -/
def runState (cfg : Cfg) (s : List Nat) (o : LoopOutcome) : NState :=
  feedBytes cfg initState (consumedStream s o)

/-- The context manager exit of the notifier closes the bar exactly when
one was created; the with statement runs it once on every path out of the
block. -/
def closeCount (st : NState) : Nat := if st.pbar.isSome then 1 else 0

/-- Observable result of main: the returned exit code (none when an
exception escapes main uncaught), the message payloads printed after the
loop, and the number of renderer close calls. -/
structure MainResult where
  exit : Option Int
  messages : List (List Nat)
  closes : Nat
deriving DecidableEq

/-- The bytes of the fixed interrupt message Exiting-dot. -/
def exitingMsg : List Nat := [69, 120, 105, 116, 105, 110, 103, 46]

/-- The bytes of the unexpected-exception message: the fixed text followed
by a space and the fault message, as print with two arguments emits. -/
def unexpectedMsg (m : List Nat) : List Nat :=
  [85, 110, 101, 120, 112, 101, 99, 116, 101, 100, 32,
   101, 120, 99, 101, 112, 116, 105, 111, 110, 58] ++ (32 :: m)

/-- Model of main: the with block guarantees one renderer release on every
path; on interrupt main returns 128 plus SIGINT with the fixed message; on
a fault it returns 1 with the fault message; on normal completion with a
nonzero child code it prints the last history line and returns the code,
except that indexing an empty history raises an IndexError which the
try-except does not cover (exceptions in the else clause are not caught),
so no code is returned. -/
def runMain (cfg : Cfg) (s : List Nat) : LoopOutcome → MainResult
  | .interrupted k =>
      { exit := some (128 + (SIGINT : Int)), messages := [exitingMsg],
        closes := closeCount (runState cfg s (.interrupted k)) }
  | .faulted k msg =>
      { exit := some 1, messages := [unexpectedMsg msg],
        closes := closeCount (runState cfg s (.faulted k msg)) }
  | .finished rc =>
      if rc ≠ 0 then
        match (runState cfg s (.finished rc)).lines.getLast? with
        | some l =>
            { exit := some rc, messages := [l],
              closes := closeCount (runState cfg s (.finished rc)) }
        | none =>
            { exit := none, messages := [],
              closes := closeCount (runState cfg s (.finished rc)) }
      else
        { exit := some rc, messages := [],
          closes := closeCount (runState cfg s (.finished rc)) }

/-! ## Concrete streams used by the claims -/

/-- Scenario A input: a duration line, a source line, and a frame counter
line carrying an fps field and a time field, each newline-terminated. -/
def scenarioAStream : List Nat :=
  str2bytes "Duration: 00:01:40.00" ++ [10] ++
  str2bytes "from " ++ [39] ++ str2bytes "clip.mp4" ++ [39, 58] ++ [10] ++
  str2bytes "frame=  10 fps= 25 ... time=00:00:10.00 ..." ++ [10]

/-- A position line followed by a strictly smaller position line. -/
def regressStream : List Nat :=
  str2bytes "time=00:00:10.00" ++ [10] ++ str2bytes "time=00:00:05.00" ++ [10]

/-- A prompt line whose body also matches the position pattern. -/
def promptTimeLine : List Nat := str2bytes "time=00:00:10.00 [y/N] "

/-- A prompt line whose body matches both the duration pattern and the
position pattern. -/
def promptFactsLine : List Nat := str2bytes "Duration: 00:01:40.00 time=00:00:10.00 [y/N] "

/-- A single position line, used to create a bar. -/
def oneTimeLine : List Nat := str2bytes "time=00:00:05.00" ++ [10]

/-- A state whose accumulator holds an overwrite prompt lacking only its
final space. -/
def promptState : NState := { initState with line_acc := str2bytes "Overwrite? [y/N]" }

/-- A configuration with an interactive input source attached whose
response is the single byte y. -/
def cfgStdin : Cfg := { stdin := true, response := [121], use_colors := false }

/-- A bar handle sitting at absolute position three. -/
def pW : PBar := { desc := none, total := none, unit := " seconds", n := 3 }

/-- A state with an existing bar at position three. -/
def c4State : NState := { initState with pbar := some pW }

/-- A state with a zero duration and a known fps, before any bar exists. -/
def c10State : NState := { initState with duration := some 0, fps := some 25 }

/-- A diagnostic line followed by a newline, for the error-report claims. -/
def oopsStream : List Nat := str2bytes "oops" ++ [10]

/-- The two ASCII digit bytes of a number below one hundred. -/
def dd (n : Nat) : List Nat := [48 + n / 10, 48 + n % 10]

/-- The bytes of a well-formed timestamp HH colon MM colon SS dot ff. -/
def tsBytes (h m s f : Nat) : List Nat :=
  dd h ++ 58 :: (dd m ++ 58 :: (dd s ++ 46 :: dd f))

/-! ## Helper lemmas -/

theorem matchLit_self (p rest : List Nat) : matchLit p (p ++ rest) = some rest := by
  induction p with
  | nil => rfl
  | cons a as ih => simp [matchLit, ih]

theorem matchTwoDigits_dd (n : Nat) (hn : n ≤ 99) (rest : List Nat) :
    matchTwoDigits (dd n ++ rest) = some (n, rest) := by
  show matchTwoDigits ((48 + n / 10) :: (48 + n % 10) :: rest) = some (n, rest)
  have hv : (48 + n / 10 - 48) * 10 + (48 + n % 10 - 48) = n := by omega
  simp only [matchTwoDigits]
  rw [if_pos]
  · rw [hv]
  · refine ⟨by omega, by omega, by omega, by omega⟩

theorem matchTimestamp_ts (h m s f : Nat) (rest : List Nat)
    (hh : h ≤ 99) (hm : m ≤ 99) (hs : s ≤ 99) (hf : f ≤ 99) :
    matchTimestamp (tsBytes h m s f ++ rest) = some (secondsOf h m s, rest) := by
  have e : tsBytes h m s f ++ rest
      = dd h ++ (58 :: (dd m ++ (58 :: (dd s ++ (46 :: (dd f ++ rest)))))) := by
    simp [tsBytes]
  rw [e]
  simp [matchTimestamp, matchByte, matchTwoDigits_dd h hh, matchTwoDigits_dd m hm,
        matchTwoDigits_dd s hs, matchTwoDigits_dd f hf]

theorem matchDurationAt_ts (h m s f : Nat)
    (hh : h ≤ 99) (hm : m ≤ 99) (hs : s ≤ 99) (hf : f ≤ 99) :
    matchDurationAt (durationLit ++ tsBytes h m s f) = some (secondsOf h m s) := by
  have h1 := matchTimestamp_ts h m s f [] hh hm hs hf
  rw [List.append_nil] at h1
  simp [matchDurationAt, matchLit_self, h1]

theorem matchProgressAt_ts (h m s f : Nat)
    (hh : h ≤ 99) (hm : m ≤ 99) (hs : s ≤ 99) (hf : f ≤ 99) :
    matchProgressAt (timeLit ++ tsBytes h m s f) = some (secondsOf h m s) := by
  have h1 := matchTimestamp_ts h m s f [] hh hm hs hf
  rw [List.append_nil] at h1
  simp [matchProgressAt, matchLit_self, h1]

theorem reSearch_head {α : Type} (m : List Nat → Option α) (b : Nat) (t : List Nat) (v : α)
    (h : m (b :: t) = some v) : reSearch m (b :: t) = some v := by
  simp [reSearch, h]

theorem get_duration_ts (h m s f : Nat)
    (hh : h ≤ 99) (hm : m ≤ 99) (hs : s ≤ 99) (hf : f ≤ 99) :
    get_duration (durationLit ++ tsBytes h m s f) = some (secondsOf h m s) := by
  have hd := matchDurationAt_ts h m s f hh hm hs hf
  rw [show durationLit ++ tsBytes h m s f
      = 68 :: ([117, 114, 97, 116, 105, 111, 110, 58, 32] ++ tsBytes h m s f) from rfl] at hd
  exact reSearch_head matchDurationAt 68
    ([117, 114, 97, 116, 105, 111, 110, 58, 32] ++ tsBytes h m s f) _ hd

theorem searchProgress_ts (h m s f : Nat)
    (hh : h ≤ 99) (hm : m ≤ 99) (hs : s ≤ 99) (hf : f ≤ 99) :
    searchProgress (timeLit ++ tsBytes h m s f) = some (secondsOf h m s) := by
  have hd := matchProgressAt_ts h m s f hh hm hs hf
  rw [show timeLit ++ tsBytes h m s f
      = 116 :: ([105, 109, 101, 61] ++ tsBytes h m s f) from rfl] at hd
  exact reSearch_head matchProgressAt 116 ([105, 109, 101, 61] ++ tsBytes h m s f) _ hd

theorem singleton_term_iff (b : Nat) :
    ([b] = [] ∨ [b] = [13] ∨ [b] = [10] ∨ [b] = [13, 10]) ↔ (b = 13 ∨ b = 10) := by
  simp

theorem progress_skeleton (cfg : Cfg) (st : NState) (line : List Nat) :
    (progress cfg st line).duration = st.duration
  ∧ (progress cfg st line).source = st.source
  ∧ (progress cfg st line).fps = st.fps
  ∧ (progress cfg st line).lines = st.lines
  ∧ (progress cfg st line).line_acc = st.line_acc
  ∧ (progress cfg st line).promptRenders = st.promptRenders
  ∧ (progress cfg st line).flushes = st.flushes
  ∧ (progress cfg st line).stdinPuts = st.stdinPuts := by
  unfold progress
  cases hsp : searchProgress line with
  | none => simp
  | some sec =>
      cases hp : st.pbar with
      | none => simp [hp]
      | some p => simp [hp]

theorem progress_duration (cfg : Cfg) (st : NState) (line : List Nat) :
    (progress cfg st line).duration = st.duration := (progress_skeleton cfg st line).1

theorem progress_source (cfg : Cfg) (st : NState) (line : List Nat) :
    (progress cfg st line).source = st.source := (progress_skeleton cfg st line).2.1

theorem progress_fps (cfg : Cfg) (st : NState) (line : List Nat) :
    (progress cfg st line).fps = st.fps := (progress_skeleton cfg st line).2.2.1

theorem progress_lines (cfg : Cfg) (st : NState) (line : List Nat) :
    (progress cfg st line).lines = st.lines := (progress_skeleton cfg st line).2.2.2.1

theorem progress_line_acc (cfg : Cfg) (st : NState) (line : List Nat) :
    (progress cfg st line).line_acc = st.line_acc := (progress_skeleton cfg st line).2.2.2.2.1

theorem progress_deltas_len (cfg : Cfg) (st : NState) (line : List Nat) (sec : Nat)
    (hm : searchProgress line = some sec) :
    (progress cfg st line).deltas.length = st.deltas.length + 1 := by
  unfold progress
  rw [hm]
  cases hp : st.pbar with
  | none => simp [hp]
  | some p => simp [hp]

theorem progress_deltas_nomatch (cfg : Cfg) (st : NState) (line : List Nat)
    (hm : searchProgress line = none) :
    (progress cfg st line).deltas = st.deltas := by
  unfold progress
  rw [hm]

theorem latchDuration_skeleton (st : NState) (line : List Nat) :
    (latchDuration st line).lines = st.lines
  ∧ (latchDuration st line).line_acc = st.line_acc
  ∧ (latchDuration st line).source = st.source
  ∧ (latchDuration st line).fps = st.fps
  ∧ (latchDuration st line).pbar = st.pbar
  ∧ (latchDuration st line).deltas = st.deltas := by
  unfold latchDuration
  split <;> simp

theorem latchSource_skeleton (st : NState) (line : List Nat) :
    (latchSource st line).lines = st.lines
  ∧ (latchSource st line).line_acc = st.line_acc
  ∧ (latchSource st line).duration = st.duration
  ∧ (latchSource st line).fps = st.fps
  ∧ (latchSource st line).pbar = st.pbar
  ∧ (latchSource st line).deltas = st.deltas := by
  unfold latchSource
  split <;> simp

theorem latchFps_skeleton (st : NState) (line : List Nat) :
    (latchFps st line).lines = st.lines
  ∧ (latchFps st line).line_acc = st.line_acc
  ∧ (latchFps st line).duration = st.duration
  ∧ (latchFps st line).source = st.source
  ∧ (latchFps st line).pbar = st.pbar
  ∧ (latchFps st line).deltas = st.deltas := by
  unfold latchFps
  split <;> simp

theorem latchDuration_some (st : NState) (line : List Nat) (v : Nat)
    (h : st.duration = some v) : (latchDuration st line).duration = some v := by
  unfold latchDuration
  simp [h]

theorem latchDuration_none (st : NState) (line : List Nat)
    (h : st.duration = none) : (latchDuration st line).duration = get_duration line := by
  unfold latchDuration
  simp [h]

theorem latchSource_some (st : NState) (line : List Nat) (v : List Nat)
    (h : st.source = some v) : (latchSource st line).source = some v := by
  unfold latchSource
  simp [h]

theorem latchSource_none (st : NState) (line : List Nat)
    (h : st.source = none) : (latchSource st line).source = get_source line := by
  unfold latchSource
  simp [h]

theorem latchFps_some (st : NState) (line : List Nat) (v : Nat)
    (h : st.fps = some v) : (latchFps st line).fps = some v := by
  unfold latchFps
  simp [h]

theorem latchFps_none (st : NState) (line : List Nat)
    (h : st.fps = none) : (latchFps st line).fps = get_fps line := by
  unfold latchFps
  simp [h]

theorem call_term_lines_acc (cfg : Cfg) (st : NState) (b : Nat) (hb : b = 13 ∨ b = 10) :
    (call cfg st [b]).lines = st.lines ++ [st.line_acc] ∧ (call cfg st [b]).line_acc = [] := by
  have hcond := (singleton_term_iff b).mpr hb
  unfold call
  rw [if_pos hcond]
  refine ⟨?_, ?_⟩
  · rw [progress_lines, (latchFps_skeleton _ _).1, (latchSource_skeleton _ _).1,
        (latchDuration_skeleton _ _).1]
    rfl
  · rw [progress_line_acc, (latchFps_skeleton _ _).2.1, (latchSource_skeleton _ _).2.1,
        (latchDuration_skeleton _ _).2.1]
    rfl

theorem call_nonterm (cfg : Cfg) (st : NState) (b : Nat) (hb : ¬(b = 13 ∨ b = 10))
    (hnm : lastN 6 (st.line_acc ++ [b]) ≠ promptMarker) :
    call cfg st [b] = { st with line_acc := st.line_acc ++ [b] } := by
  have hcond : ¬([b] = [] ∨ [b] = [13] ∨ [b] = [10] ∨ [b] = [13, 10]) :=
    fun hc => hb ((singleton_term_iff b).mp hc)
  unfold call
  rw [if_neg hcond, if_neg hnm]

theorem call_prompt (cfg : Cfg) (st : NState) (b : Nat) (hb : ¬(b = 13 ∨ b = 10))
    (hm : lastN 6 (st.line_acc ++ [b]) = promptMarker) :
    call cfg st [b] = (newline (promptForward cfg (promptRender st [b]))).1 := by
  have hcond : ¬([b] = [] ∨ [b] = [13] ∨ [b] = [10] ∨ [b] = [13, 10]) :=
    fun hc => hb ((singleton_term_iff b).mp hc)
  unfold call
  rw [if_neg hcond, if_pos hm]

theorem promptForward_core (cfg : Cfg) (st : NState) :
    (promptForward cfg st).duration = st.duration
  ∧ (promptForward cfg st).source = st.source
  ∧ (promptForward cfg st).fps = st.fps
  ∧ (promptForward cfg st).lines = st.lines
  ∧ (promptForward cfg st).line_acc = st.line_acc
  ∧ (promptForward cfg st).promptRenders = st.promptRenders
  ∧ (promptForward cfg st).flushes = st.flushes
  ∧ (promptForward cfg st).deltas = st.deltas
  ∧ (promptForward cfg st).pbar = st.pbar := by
  unfold promptForward
  split <;> simp

theorem call_duration_some (cfg : Cfg) (st : NState) (c : List Nat) (v : Nat)
    (h : st.duration = some v) : (call cfg st c).duration = some v := by
  unfold call
  split
  · rw [progress_duration, (latchFps_skeleton _ _).2.2.1, (latchSource_skeleton _ _).2.2.1]
    exact latchDuration_some _ _ _ h
  · split
    · show (promptForward cfg (promptRender st c)).duration = some v
      rw [(promptForward_core _ _).1]
      exact h
    · exact h

theorem call_source_some (cfg : Cfg) (st : NState) (c : List Nat) (v : List Nat)
    (h : st.source = some v) : (call cfg st c).source = some v := by
  unfold call
  split
  · rw [progress_source, (latchFps_skeleton _ _).2.2.2.1]
    exact latchSource_some _ _ _ (by rw [(latchDuration_skeleton _ _).2.2.1]; exact h)
  · split
    · show (promptForward cfg (promptRender st c)).source = some v
      rw [(promptForward_core _ _).2.1]
      exact h
    · exact h

theorem call_fps_some (cfg : Cfg) (st : NState) (c : List Nat) (v : Nat)
    (h : st.fps = some v) : (call cfg st c).fps = some v := by
  unfold call
  split
  · rw [progress_fps]
    refine latchFps_some _ _ _ ?_
    rw [(latchSource_skeleton _ _).2.2.2.1, (latchDuration_skeleton _ _).2.2.2.1]
    exact h
  · split
    · show (promptForward cfg (promptRender st c)).fps = some v
      rw [(promptForward_core _ _).2.2.1]
      exact h
    · exact h

theorem feedBytes_cons (cfg : Cfg) (st : NState) (b : Nat) (t : List Nat) :
    feedBytes cfg st (b :: t) = feedBytes cfg (call cfg st [b]) t := rfl

theorem feedBytes_duration_some (cfg : Cfg) (bs : List Nat) (st : NState) (v : Nat)
    (h : st.duration = some v) : (feedBytes cfg st bs).duration = some v := by
  induction bs generalizing st with
  | nil => exact h
  | cons b t ih => rw [feedBytes_cons]; exact ih _ (call_duration_some cfg st [b] v h)

theorem feedBytes_source_some (cfg : Cfg) (bs : List Nat) (st : NState) (v : List Nat)
    (h : st.source = some v) : (feedBytes cfg st bs).source = some v := by
  induction bs generalizing st with
  | nil => exact h
  | cons b t ih => rw [feedBytes_cons]; exact ih _ (call_source_some cfg st [b] v h)

theorem feedBytes_fps_some (cfg : Cfg) (bs : List Nat) (st : NState) (v : Nat)
    (h : st.fps = some v) : (feedBytes cfg st bs).fps = some v := by
  induction bs generalizing st with
  | nil => exact h
  | cons b t ih => rw [feedBytes_cons]; exact ih _ (call_fps_some cfg st [b] v h)

theorem call_term_duration_none (cfg : Cfg) (st : NState) (b : Nat)
    (hb : b = 13 ∨ b = 10) (h : st.duration = none) :
    (call cfg st [b]).duration = get_duration st.line_acc := by
  have hcond := (singleton_term_iff b).mpr hb
  unfold call
  rw [if_pos hcond, progress_duration, (latchFps_skeleton _ _).2.2.1,
      (latchSource_skeleton _ _).2.2.1]
  exact latchDuration_none _ _ h

theorem call_term_source_none (cfg : Cfg) (st : NState) (b : Nat)
    (hb : b = 13 ∨ b = 10) (h : st.source = none) :
    (call cfg st [b]).source = get_source st.line_acc := by
  have hcond := (singleton_term_iff b).mpr hb
  unfold call
  rw [if_pos hcond, progress_source, (latchFps_skeleton _ _).2.2.2.1]
  refine latchSource_none _ _ ?_
  rw [(latchDuration_skeleton _ _).2.2.1]
  exact h

theorem call_term_fps_none (cfg : Cfg) (st : NState) (b : Nat)
    (hb : b = 13 ∨ b = 10) (h : st.fps = none) :
    (call cfg st [b]).fps = get_fps st.line_acc := by
  have hcond := (singleton_term_iff b).mpr hb
  unfold call
  rw [if_pos hcond, progress_fps]
  refine latchFps_none _ _ ?_
  rw [(latchSource_skeleton _ _).2.2.2.1, (latchDuration_skeleton _ _).2.2.2.1]
  exact h

theorem call_term_deltas_len (cfg : Cfg) (st : NState) (b : Nat) (sec : Nat)
    (hb : b = 13 ∨ b = 10) (hm : searchProgress st.line_acc = some sec) :
    (call cfg st [b]).deltas.length = st.deltas.length + 1 := by
  have hcond := (singleton_term_iff b).mpr hb
  unfold call
  rw [if_pos hcond, show (newline st).2 = st.line_acc from rfl,
      progress_deltas_len _ _ _ sec hm, (latchFps_skeleton _ _).2.2.2.2.2,
      (latchSource_skeleton _ _).2.2.2.2.2, (latchDuration_skeleton _ _).2.2.2.2.2]
  rfl

theorem call_term_on_empty (cfg : Cfg) (L : List (List Nat)) :
    call cfg { initState with lines := L } [10] = { initState with lines := L ++ [[]] } := rfl

theorem feed_terminators (cfg : Cfg) (k : Nat) (L : List (List Nat)) :
    (feedBytes cfg { initState with lines := L } (List.replicate k 10)).lines
      = L ++ List.replicate k [] := by
  induction k generalizing L with
  | zero => simp [feedBytes]
  | succ n ih =>
      rw [List.replicate_succ, feedBytes_cons, call_term_on_empty, ih]
      simp [List.replicate_succ]

/-! ## Claims -/

/-- C1, counterexample: the byte sequence carriage-return line-feed yields
two empty completed lines when fed one byte at a time, but only one when
delivered as a single chunk, because the Python membership test treats the
two-byte chunk as a single terminator; so chunking independence fails. -/
theorem chunk_vs_bytewise_counterexample :
    (feedBytes cfg0 initState [13, 10]).lines ≠ (call cfg0 initState [13, 10]).lines := by
  decide

/-- C1, amended: fed one byte at a time, each terminator byte (13 or 10)
snapshots the buffer as a completed line appended to history and clears the
buffer — in particular a run of k leading terminator bytes yields k empty
lines — while a non-terminator byte that does not complete the prompt
marker is appended to the buffer and yields no line.  Delivering several
bytes in one call is not equivalent to feeding them one at a time. -/
theorem bytewise_feed_contract :
    (∀ cfg st b, (b = 13 ∨ b = 10) →
        (call cfg st [b]).lines = st.lines ++ [st.line_acc]
      ∧ (call cfg st [b]).line_acc = [])
  ∧ (∀ cfg st b, ¬(b = 13 ∨ b = 10) → lastN 6 (st.line_acc ++ [b]) ≠ promptMarker →
        call cfg st [b] = { st with line_acc := st.line_acc ++ [b] })
  ∧ (∀ cfg k, (feedBytes cfg initState (List.replicate k 10)).lines
        = List.replicate k ([] : List Nat)) :=
  ⟨fun cfg st b hb => call_term_lines_acc cfg st b hb,
   fun cfg st b hb hnm => call_nonterm cfg st b hb hnm,
   fun cfg k => feed_terminators cfg k []⟩

/-- C1, witness: a terminator byte completes the empty line, a plain byte
is only buffered, and three line feeds yield three empty lines. -/
theorem bytewise_feed_contract_witness :
    ((call cfg0 initState [10]).lines = initState.lines ++ [initState.line_acc]
      ∧ (call cfg0 initState [10]).line_acc = [])
  ∧ call cfg0 initState [97] = { initState with line_acc := initState.line_acc ++ [97] }
  ∧ (feedBytes cfg0 initState (List.replicate 3 10)).lines = List.replicate 3 ([] : List Nat) :=
  ⟨bytewise_feed_contract.1 cfg0 initState 10 (Or.inr rfl),
   bytewise_feed_contract.2.1 cfg0 initState 97 (by decide) (by decide),
   bytewise_feed_contract.2.2 cfg0 3⟩

/-- C2, counterexample: a line force-completed by the prompt detector is in
the history and matches the position pattern, yet no renderer update fired
and no bar exists — the position extractor does not fire on every matching
completed line, and prompt-completed lines bypass all extractors. -/
theorem prompt_line_skips_progress :
    (feedBytes cfg0 initState promptTimeLine).lines = [promptTimeLine]
  ∧ searchProgress promptTimeLine = some 10
  ∧ (feedBytes cfg0 initState promptTimeLine).deltas = []
  ∧ (feedBytes cfg0 initState promptTimeLine).pbar = none := by
  decide

/-- C2, amended: duration, source and fps are latched — once set they are
never changed by any later input — and each is set from the first
terminator-completed line via its extractor; the position extractor, by
contrast, triggers a renderer update on every terminator-completed line it
matches.  Lines force-completed by the prompt detector bypass all four
extractors. -/
theorem fact_latching_progress_each_line :
    (∀ cfg st bs v, st.duration = some v → (feedBytes cfg st bs).duration = some v)
  ∧ (∀ cfg st bs v, st.source = some v → (feedBytes cfg st bs).source = some v)
  ∧ (∀ cfg st bs v, st.fps = some v → (feedBytes cfg st bs).fps = some v)
  ∧ (∀ cfg st b, (b = 13 ∨ b = 10) → st.duration = none →
        (call cfg st [b]).duration = get_duration st.line_acc)
  ∧ (∀ cfg st b, (b = 13 ∨ b = 10) → st.source = none →
        (call cfg st [b]).source = get_source st.line_acc)
  ∧ (∀ cfg st b, (b = 13 ∨ b = 10) → st.fps = none →
        (call cfg st [b]).fps = get_fps st.line_acc)
  ∧ (∀ cfg st b sec, (b = 13 ∨ b = 10) → searchProgress st.line_acc = some sec →
        (call cfg st [b]).deltas.length = st.deltas.length + 1) :=
  ⟨fun cfg st bs v h => feedBytes_duration_some cfg bs st v h,
   fun cfg st bs v h => feedBytes_source_some cfg bs st v h,
   fun cfg st bs v h => feedBytes_fps_some cfg bs st v h,
   fun cfg st b hb h => call_term_duration_none cfg st b hb h,
   fun cfg st b hb h => call_term_source_none cfg st b hb h,
   fun cfg st b hb h => call_term_fps_none cfg st b hb h,
   fun cfg st b sec hb hm => call_term_deltas_len cfg st b sec hb hm⟩

/-- C2, witness: a latched duration survives further input; on a terminator
the unset facts are taken from the completed line; a buffered position line
fires one renderer update when its terminator arrives. -/
theorem fact_latching_progress_each_line_witness :
    (feedBytes cfg0 { initState with duration := some 7 } [10, 97]).duration = some 7
  ∧ (feedBytes cfg0 { initState with source := some [97] } [10, 97]).source = some [97]
  ∧ (feedBytes cfg0 { initState with fps := some 3 } [10, 97]).fps = some 3
  ∧ (call cfg0 initState [10]).duration = get_duration initState.line_acc
  ∧ (call cfg0 initState [10]).source = get_source initState.line_acc
  ∧ (call cfg0 initState [10]).fps = get_fps initState.line_acc
  ∧ (call cfg0 { initState with line_acc := str2bytes "time=00:00:10.00" } [10]).deltas.length
      = ({ initState with line_acc := str2bytes "time=00:00:10.00" } : NState).deltas.length + 1 :=
  ⟨fact_latching_progress_each_line.1 cfg0 _ [10, 97] 7 rfl,
   fact_latching_progress_each_line.2.1 cfg0 _ [10, 97] [97] rfl,
   fact_latching_progress_each_line.2.2.1 cfg0 _ [10, 97] 3 rfl,
   fact_latching_progress_each_line.2.2.2.1 cfg0 initState 10 (Or.inr rfl) rfl,
   fact_latching_progress_each_line.2.2.2.2.1 cfg0 initState 10 (Or.inr rfl) rfl,
   fact_latching_progress_each_line.2.2.2.2.2.1 cfg0 initState 10 (Or.inr rfl) rfl,
   fact_latching_progress_each_line.2.2.2.2.2.2 cfg0 _ 10 10 (Or.inr rfl) (by decide)⟩

/-- C3, confirmed: every well-formed timestamp with two-digit fields is
converted by both the duration extractor and the position extractor to
(HH times 60 plus MM) times 60 plus SS seconds, the fraction discarded. -/
theorem timestamp_conversion (h m s f : Nat)
    (hh : h ≤ 99) (hm : m ≤ 99) (hs : s ≤ 99) (hf : f ≤ 99) :
    get_duration (durationLit ++ tsBytes h m s f) = some ((h * 60 + m) * 60 + s)
  ∧ searchProgress (timeLit ++ tsBytes h m s f) = some ((h * 60 + m) * 60 + s) :=
  ⟨get_duration_ts h m s f hh hm hs hf, searchProgress_ts h m s f hh hm hs hf⟩

/-- C3, witness: the timestamp 12:34:56.78 converts to 45296 seconds under
both extractors. -/
theorem timestamp_conversion_witness :
    get_duration (durationLit ++ tsBytes 12 34 56 78) = some ((12 * 60 + 34) * 60 + 56)
  ∧ searchProgress (timeLit ++ tsBytes 12 34 56 78) = some ((12 * 60 + 34) * 60 + 56) :=
  timestamp_conversion 12 34 56 78 (by decide) (by decide) (by decide) (by decide)

/-- C4, counterexample: a position line for ten seconds followed by one for
five seconds makes the notifier report the deltas ten and minus five — the
delta passed to the renderer is not always nonnegative and the bar is moved
backward. -/
theorem negative_delta_counterexample :
    ¬ ∀ d ∈ (feedBytes cfg0 initState regressStream).deltas, 0 ≤ d := by
  decide

/-- C4, amended: on a matching position update with an existing bar, the
delta reported to the renderer is exactly the computed current value minus
the bar's absolute position, the bar's position becomes the current value,
and the delta is nonnegative exactly when the current value is at least the
last reported position — no clamping is applied, so a smaller extracted
position produces a negative delta and a visible regression. -/
theorem delta_semantics (cfg : Cfg) (st : NState) (line : List Nat) (sec : Nat) (p : PBar)
    (hm : searchProgress line = some sec) (hp : st.pbar = some p) :
    (progress cfg st line).deltas
      = st.deltas ++ [((progressCurrent st sec : Nat) : Int) - p.n]
  ∧ (progress cfg st line).pbar = some { p with n := ((progressCurrent st sec : Nat) : Int) }
  ∧ (0 ≤ ((progressCurrent st sec : Nat) : Int) - p.n ↔ p.n ≤ (progressCurrent st sec : Nat)) := by
  unfold progress
  rw [hm]
  simp only [hp]
  refine ⟨?_, ?_, ?_⟩
  · cases p with
    | mk d t u n => simp
  · cases p with
    | mk d t u n =>
        simp only [PBar.mk.injEq]
        rw [Int.add_comm, Int.sub_add_cancel]
  · exact Int.sub_nonneg

/-- C4, witness: with a bar at position three, a seven second position line
reports delta four and moves the bar to seven. -/
theorem delta_semantics_witness :
    (progress cfg0 c4State (str2bytes "time=00:00:07.00")).deltas
      = c4State.deltas ++ [((progressCurrent c4State 7 : Nat) : Int) - pW.n]
  ∧ (progress cfg0 c4State (str2bytes "time=00:00:07.00")).pbar
      = some { pW with n := ((progressCurrent c4State 7 : Nat) : Int) }
  ∧ (0 ≤ ((progressCurrent c4State 7 : Nat) : Int) - pW.n
      ↔ pW.n ≤ (progressCurrent c4State 7 : Nat)) :=
  delta_semantics cfg0 c4State (str2bytes "time=00:00:07.00") 7 pW (by decide) rfl

/-- C5, counterexample: a force-completed prompt line whose text matches
both the duration pattern and the position pattern is recorded in history,
yet no downstream fact extraction takes place on it — duration stays unset
and no renderer update fires — so fact extraction does not proceed normally
on the synthetically completed line. -/
theorem prompt_bypasses_extraction_counterexample :
    (feedBytes cfg0 initState promptFactsLine).lines = [promptFactsLine]
  ∧ get_duration promptFactsLine = some 100
  ∧ searchProgress promptFactsLine = some 10
  ∧ (feedBytes cfg0 initState promptFactsLine).duration = none
  ∧ (feedBytes cfg0 initState promptFactsLine).deltas = []
  ∧ (feedBytes cfg0 initState promptFactsLine).pbar = none := by
  decide

/-- C5, amended: when a fed byte makes the trailing six buffer bytes equal
the prompt marker, exactly one prompt (the full buffer) is rendered, exactly
one flush is issued, exactly one response line with a newline appended is
forwarded when an input source is attached and none otherwise, and exactly
one synthetic line completion records the full buffer — no bytes lost — in
the history, clearing the accumulator; however downstream fact extraction
does NOT proceed on that line: the forced completion bypasses all four
extractors, leaving duration, source, fps, the bar and the reported deltas
unchanged. -/
theorem prompt_detection_effects (cfg : Cfg) (st : NState) (b : Nat)
    (hb : ¬(b = 13 ∨ b = 10)) (hm : lastN 6 (st.line_acc ++ [b]) = promptMarker) :
    (call cfg st [b]).promptRenders = st.promptRenders ++ [st.line_acc ++ [b]]
  ∧ (call cfg st [b]).flushes = st.flushes + 1
  ∧ (call cfg st [b]).stdinPuts
      = st.stdinPuts ++ (if cfg.stdin then [cfg.response ++ [10]] else [])
  ∧ (call cfg st [b]).lines = st.lines ++ [st.line_acc ++ [b]]
  ∧ (call cfg st [b]).line_acc = []
  ∧ (call cfg st [b]).duration = st.duration
  ∧ (call cfg st [b]).source = st.source
  ∧ (call cfg st [b]).fps = st.fps
  ∧ (call cfg st [b]).pbar = st.pbar
  ∧ (call cfg st [b]).deltas = st.deltas := by
  rw [call_prompt cfg st b hb hm]
  cases hstdin : cfg.stdin <;>
    simp [newline, promptForward, promptRender, hstdin]

/-- C5, witness: completing the marker of an overwrite prompt with the
space byte renders the prompt once, flushes once, forwards one response
line, completes the line with no bytes lost, and extracts no facts. -/
theorem prompt_detection_effects_witness :
    (call cfgStdin promptState [32]).promptRenders
      = promptState.promptRenders ++ [promptState.line_acc ++ [32]]
  ∧ (call cfgStdin promptState [32]).flushes = promptState.flushes + 1
  ∧ (call cfgStdin promptState [32]).stdinPuts
      = promptState.stdinPuts
          ++ (if cfgStdin.stdin then [cfgStdin.response ++ [10]] else [])
  ∧ (call cfgStdin promptState [32]).lines = promptState.lines ++ [promptState.line_acc ++ [32]]
  ∧ (call cfgStdin promptState [32]).line_acc = []
  ∧ (call cfgStdin promptState [32]).duration = promptState.duration
  ∧ (call cfgStdin promptState [32]).source = promptState.source
  ∧ (call cfgStdin promptState [32]).fps = promptState.fps
  ∧ (call cfgStdin promptState [32]).pbar = promptState.pbar
  ∧ (call cfgStdin promptState [32]).deltas = promptState.deltas :=
  prompt_detection_effects cfgStdin promptState 32 (by decide) (by decide)

/-- C6, counterexample: on scenario A the bar is created with total 1000 and
the first reported delta is 100, not 2500 and 250: the fps pattern requires
digits before the space-fps text, so it matches the frame counter ten and
latches fps as ten instead of twenty-five. -/
theorem scenarioA_counterexample :
    (feedBytes cfg0 initState scenarioAStream).pbar.map PBar.total = some (some 1000)
  ∧ (feedBytes cfg0 initState scenarioAStream).deltas = [100]
  ∧ ¬ ((feedBytes cfg0 initState scenarioAStream).pbar.map PBar.total = some (some 2500)
        ∧ (feedBytes cfg0 initState scenarioAStream).deltas = [250]) := by
  decide

/-- C6, amended: scenario A creates the bar exactly once with the frames
unit, total 1000 and a first delta of 100, the fps fact having latched to
ten from the frame counter. -/
theorem scenarioA_actual :
    (feedBytes cfg0 initState scenarioAStream).pbarCreations = 1
  ∧ (feedBytes cfg0 initState scenarioAStream).pbar.map PBar.unit = some " frames"
  ∧ (feedBytes cfg0 initState scenarioAStream).pbar.map PBar.total = some (some 1000)
  ∧ (feedBytes cfg0 initState scenarioAStream).deltas = [100]
  ∧ (feedBytes cfg0 initState scenarioAStream).fps = some 10 := by
  decide

/-- C7, counterexample: a run whose child exits with code two but produced
no completed line makes main raise an uncaught IndexError instead of
returning the encoder's exit code. -/
theorem normal_exit_no_history_counterexample :
    (runMain cfg0 [] (LoopOutcome.finished 2)).exit = none
  ∧ (runMain cfg0 [] (LoopOutcome.finished 2)).exit ≠ some 2 := by
  decide

/-- C7, amended: main returns the encoder's own exit code on normal
completion provided that, when that code is nonzero, at least one line was
recorded (with an empty history the error report raises and no code is
returned); it returns 128 plus SIGINT with the fixed Exiting message on
interrupt, and 1 with the fault's message on an unexpected fault. -/
theorem exit_code_dispatch :
    (∀ cfg s rc, (rc = 0 ∨ (runState cfg s (LoopOutcome.finished rc)).lines ≠ []) →
        (runMain cfg s (LoopOutcome.finished rc)).exit = some rc)
  ∧ (∀ cfg s k, (runMain cfg s (LoopOutcome.interrupted k)).exit = some (128 + (SIGINT : Int))
        ∧ (runMain cfg s (LoopOutcome.interrupted k)).messages = [exitingMsg])
  ∧ (∀ cfg s k msg, (runMain cfg s (LoopOutcome.faulted k msg)).exit = some 1
        ∧ (runMain cfg s (LoopOutcome.faulted k msg)).messages = [unexpectedMsg msg]) := by
  refine ⟨?_, ?_, ?_⟩
  · intro cfg s rc h
    by_cases hrc : rc = 0
    · subst hrc; simp [runMain]
    · rcases h with h0 | hne
      · exact absurd h0 hrc
      · cases hgl : (runState cfg s (LoopOutcome.finished rc)).lines.getLast? with
        | none => exact absurd (List.getLast?_eq_none_iff.mp hgl) hne
        | some l => simp [runMain, hrc, hgl]
  · intro cfg s k
    exact ⟨rfl, rfl⟩
  · intro cfg s k msg
    exact ⟨rfl, rfl⟩

/-- C7, witness: zero exit passes through; a nonzero exit with a recorded
line passes through; interrupt yields 130 with the fixed message; a fault
yields 1 with its message. -/
theorem exit_code_dispatch_witness :
    (runMain cfg0 [] (LoopOutcome.finished 0)).exit = some 0
  ∧ (runMain cfg0 oneTimeLine (LoopOutcome.finished 3)).exit = some 3
  ∧ ((runMain cfg0 [] (LoopOutcome.interrupted 0)).exit = some (128 + (SIGINT : Int))
      ∧ (runMain cfg0 [] (LoopOutcome.interrupted 0)).messages = [exitingMsg])
  ∧ ((runMain cfg0 [] (LoopOutcome.faulted 0 [98])).exit = some 1
      ∧ (runMain cfg0 [] (LoopOutcome.faulted 0 [98])).messages = [unexpectedMsg [98]]) :=
  ⟨exit_code_dispatch.1 cfg0 [] 0 (Or.inl rfl),
   exit_code_dispatch.1 cfg0 oneTimeLine 3 (Or.inr (by decide)),
   exit_code_dispatch.2.1 cfg0 [] 0,
   exit_code_dispatch.2.2 cfg0 [] 0 [98]⟩

/-- C8, counterexample: with a nonzero child exit code and no recorded
line, main emits no message and returns no exit code (the history indexing
raises), contradicting the claim for such runs. -/
theorem error_line_missing_counterexample :
    (runMain cfg0 [] (LoopOutcome.finished 1)).messages = []
  ∧ (runMain cfg0 [] (LoopOutcome.finished 1)).exit ≠ some 1 := by
  decide

/-- C8, amended: for every run in which the child exits nonzero and at
least one line was recorded, main emits the last recorded history line
verbatim as the error message and returns the child's exit code; with an
empty history it raises instead. -/
theorem error_line_reporting (cfg : Cfg) (s : List Nat) (rc : Int) (h0 : rc ≠ 0)
    (hne : (runState cfg s (LoopOutcome.finished rc)).lines ≠ []) :
    ∃ l, (runState cfg s (LoopOutcome.finished rc)).lines.getLast? = some l
  ∧ (runMain cfg s (LoopOutcome.finished rc)).messages = [l]
  ∧ (runMain cfg s (LoopOutcome.finished rc)).exit = some rc := by
  cases hgl : (runState cfg s (LoopOutcome.finished rc)).lines.getLast? with
  | none => exact absurd (List.getLast?_eq_none_iff.mp hgl) hne
  | some l => exact ⟨l, rfl, by simp [runMain, h0, hgl], by simp [runMain, h0, hgl]⟩

/-- C8, witness: a run recording one diagnostic line and exiting with code
five reports that line and returns five. -/
theorem error_line_reporting_witness :
    ∃ l, (runState cfg0 oopsStream (LoopOutcome.finished 5)).lines.getLast? = some l
  ∧ (runMain cfg0 oopsStream (LoopOutcome.finished 5)).messages = [l]
  ∧ (runMain cfg0 oopsStream (LoopOutcome.finished 5)).exit = some 5 :=
  error_line_reporting cfg0 oopsStream 5 (by decide) (by decide)

/-- C9, confirmed: on every exit path — normal completion with any exit
code, interrupt after any number of consumed bytes, and unexpected fault —
the renderer handle is closed exactly once when it was created and zero
times when it never was. -/
theorem renderer_release_once (cfg : Cfg) (s : List Nat) (o : LoopOutcome) :
    ((runState cfg s o).pbar.isSome → (runMain cfg s o).closes = 1)
  ∧ ((runState cfg s o).pbar = none → (runMain cfg s o).closes = 0) := by
  have hc : (runMain cfg s o).closes = closeCount (runState cfg s o) := by
    cases o with
    | interrupted k => rfl
    | faulted k msg => rfl
    | finished rc =>
        simp only [runMain]
        split
        · split <;> rfl
        · rfl
  refine ⟨?_, ?_⟩
  · intro h
    rw [hc]
    unfold closeCount
    rw [if_pos h]
  · intro h
    rw [hc]
    unfold closeCount
    rw [h]
    rfl

/-- C9, witness: a run that created a bar closes it exactly once on normal
completion, and a run that never created one closes nothing on interrupt. -/
theorem renderer_release_once_witness :
    (runMain cfg0 oneTimeLine (LoopOutcome.finished 0)).closes = 1
  ∧ (runMain cfg0 [] (LoopOutcome.interrupted 0)).closes = 0 :=
  ⟨(renderer_release_once cfg0 oneTimeLine (LoopOutcome.finished 0)).1 (by decide),
   (renderer_release_once cfg0 [] (LoopOutcome.interrupted 0)).2 (by decide)⟩

/-- C10, confirmed: at a bar-creating position update with duration exactly
zero and fps known, the total is passed through as zero — the truthiness
test skips the fps scaling exactly as for an absent total — while the
current value is multiplied by fps, so the bar mixes a seconds total with a
frames position. -/
theorem zero_duration_total_unscaled (cfg : Cfg) (st : NState) (line : List Nat) (sec f : Nat)
    (hd : st.duration = some 0) (hf : st.fps = some f) (hm : searchProgress line = some sec)
    (hb : st.pbar = none) :
    (progress cfg st line).pbar
      = some { desc := descOf cfg st, total := some 0, unit := " frames",
               n := ((sec * f : Nat) : Int) }
  ∧ (progress cfg st line).deltas = st.deltas ++ [((sec * f : Nat) : Int)] := by
  unfold progress
  rw [hm]
  simp [hb, progressTotal, progressUnit, progressCurrent, hd, hf]

/-- C10, witness: with duration zero and fps twenty-five, a ten second
position line creates a bar with total zero and position 250. -/
theorem zero_duration_total_unscaled_witness :
    (progress cfg0 c10State (str2bytes "time=00:00:10.00")).pbar
      = some { desc := descOf cfg0 c10State, total := some 0, unit := " frames",
               n := ((10 * 25 : Nat) : Int) }
  ∧ (progress cfg0 c10State (str2bytes "time=00:00:10.00")).deltas
      = c10State.deltas ++ [((10 * 25 : Nat) : Int)] :=
  zero_duration_total_unscaled cfg0 c10State (str2bytes "time=00:00:10.00") 10 25
    rfl rfl (by decide) rfl

